import Mathlib

/-!
Shallow embedding of the host-adapter layer in src/platform/web/web.c
(PicoDrive web platform layer): the video presentation adapter
(emu_video_mode_change, pico_get_video_buffer), the audio delivery
packager (snd_write), the bounded memory stream used for save states
(state_read_cb, state_write_cb, state_skip_cb, state_eof_cb,
state_seek_cb), the state serialization bridge (pico_state_save,
pico_state_load) and the input setter (pico_set_input).

Machine integers: the build targets wasm32, so size_t values are
modelled as natural numbers with arithmetic taken mod 2 ^ 32 (W32),
C long and int values as Lean Int (signed overflow in C is undefined,
so theorems carry hypotheses keeping products in range where needed).
The cast (int)b of a size_t b is nonpositive exactly when b = 0 or
b is at least 2 ^ 31 (INT_HALF).
-/

namespace PicoWeb

/-- VOUT_MAX_WIDTH in web.c. -/
def VOUT_MAX_WIDTH : Int := 320

/-- VOUT_MAX_HEIGHT in web.c. -/
def VOUT_MAX_HEIGHT : Int := 240

/-- STATE_MAX_SIZE in web.c: 2 * 1024 * 1024 bytes. -/
def STATE_MAX_SIZE : Nat := 2 * 1024 * 1024

/-- Modulus of size_t arithmetic on the wasm32 target: 2 ^ 32. -/
def W32 : Nat := 4294967296

/-- 2 ^ 31: the first size_t value whose cast to a 32-bit int is negative. -/
def INT_HALF : Nat := 2147483648

/-- The C test (int)b <= 0 applied to a size_t value b < 2 ^ 32. -/
def intNonpos (b : Nat) : Bool := b == 0 || decide (INT_HALF ≤ b)

/-- The static video state of web.c: vout_width, vout_height, vout_offset
and the cached video mode vm_current_*, plus the core's Pico.m.dirtyPal flag
that emu_video_mode_change sets. Pixel contents are not modelled; the host
pointer is represented by its byte displacement vout_offset. -/
structure VideoState where
  vout_width : Int
  vout_height : Int
  vout_offset : Int
  vm_current_start_line : Int
  vm_current_line_count : Int
  vm_current_start_col : Int
  vm_current_col_count : Int
  dirtyPal : Bool
deriving Repr, DecidableEq

/-- Initial values of the static video variables in web.c. -/
def v0 : VideoState :=
  { vout_width := 320, vout_height := 240, vout_offset := 0,
    vm_current_start_line := -1, vm_current_line_count := -1,
    vm_current_start_col := -1, vm_current_col_count := -1,
    dirtyPal := false }

/-- emu_video_mode_change from web.c (state effect): caches the mode,
sets vout_width and vout_height from col_count and line_count, computes
vout_offset = vout_width * start_line * 2, then applies the two sanity
checks (clamp vout_height to VOUT_MAX_HEIGHT from above, clamp vout_offset
to vout_width * (VOUT_MAX_HEIGHT - 1) * 2 from above), and finally sets
Pico.m.dirtyPal. The memset of vout_buf and the PicoDrawSetOutBuf call
touch no modelled state. -/
def emu_video_mode_change (start_line line_count start_col col_count : Int)
    (s : VideoState) : VideoState :=
  let s1 := { s with vm_current_start_line := start_line,
                     vm_current_line_count := line_count,
                     vm_current_start_col := start_col,
                     vm_current_col_count := col_count }
  let s2 := { s1 with vout_width := col_count, vout_height := line_count }
  let s3 := { s2 with vout_offset := s2.vout_width * start_line * 2 }
  let s4 := if s3.vout_height > VOUT_MAX_HEIGHT
            then { s3 with vout_height := VOUT_MAX_HEIGHT } else s3
  let s5 := if s4.vout_offset > s4.vout_width * (VOUT_MAX_HEIGHT - 1) * 2
            then { s4 with vout_offset := s4.vout_width * (VOUT_MAX_HEIGHT - 1) * 2 }
            else s4
  { s5 with dirtyPal := true }

/-- The seven externally visible steps of emu_video_mode_change, used to
state ordering facts: caching the mode, setting the dimensions, clearing
the pixel buffer (memset), pointing the core at the buffer
(PicoDrawSetOutBuf with its pitch), computing/clamping the offset,
notifying the host (EM_ASM onVideoModeChange with the width and height it
reports), and marking the palette dirty. -/
inductive VStep where
  | cacheMode
  | setDims
  | clearBuf
  | setOutBuf (pitch : Int)
  | computeOffset
  | notifyHost (w h : Int)
  | dirtyPal
deriving Repr, DecidableEq

/-- The order in which emu_video_mode_change in web.c performs its seven
steps, with the payloads it passes: the pitch given to PicoDrawSetOutBuf
is vout_width * 2, and the host notification carries the width and height
as they stand after the sanity checks. In the source the EM_ASM host
notification (lines 142-147) comes before Pico.m.dirtyPal = 1 (line 150). -/
def emu_video_mode_change_trace (start_line line_count start_col col_count : Int)
    (s : VideoState) : List VStep :=
  let s1 := { s with vm_current_start_line := start_line,
                     vm_current_line_count := line_count,
                     vm_current_start_col := start_col,
                     vm_current_col_count := col_count }
  let s2 := { s1 with vout_width := col_count, vout_height := line_count }
  let s3 := { s2 with vout_offset := s2.vout_width * start_line * 2 }
  let s4 := if s3.vout_height > VOUT_MAX_HEIGHT
            then { s3 with vout_height := VOUT_MAX_HEIGHT } else s3
  let s5 := if s4.vout_offset > s4.vout_width * (VOUT_MAX_HEIGHT - 1) * 2
            then { s4 with vout_offset := s4.vout_width * (VOUT_MAX_HEIGHT - 1) * 2 }
            else s4
  [VStep.cacheMode, VStep.setDims, VStep.clearBuf,
   VStep.setOutBuf (s2.vout_width * 2), VStep.computeOffset,
   VStep.notifyHost s5.vout_width s5.vout_height, VStep.dirtyPal]

/-- pico_get_video_buffer from web.c returns vout_buf + vout_offset; the
pointer is modelled by its byte displacement from vout_buf. -/
def pico_get_video_buffer (s : VideoState) : Int := s.vout_offset

/-- pico_get_video_width from web.c. -/
def pico_get_video_width (s : VideoState) : Int := s.vout_width

/-- pico_get_video_height from web.c. -/
def pico_get_video_height (s : VideoState) : Int := s.vout_height

/-- snd_write from web.c: len is a byte count, samples = len / 4, and the
packet handed to the host is the first samples * 2 int16 values of the
core's sample buffer (HEAP16 starting at PicoIn.sndOut), read afresh on
every call. The heap is modelled as a function from index to value. -/
def snd_write (sndOut : Nat → Int) (len : Nat) : List Int :=
  let samples := len / 4
  (List.range (samples * 2)).map sndOut

/-- pico_set_input from web.c: input_state is the pair of per-pad
bitmasks; the entry for pad is set only when 0 <= pad < 2. -/
def pico_set_input (pad : Int) (buttons : Nat) (s : Nat × Nat) : Nat × Nat :=
  if 0 ≤ pad ∧ pad < 2 then
    (if pad = 0 then (buttons, s.2) else (s.1, buttons))
  else s

/-- struct state_context from web.c: the load and save backing buffers
(byte lists), the stream capacity size and the cursor pos (both size_t). -/
structure StateContext where
  load_buf : List Nat
  save_buf : List Nat
  size : Nat
  pos : Nat
deriving Repr, DecidableEq

/-- Effect of memcpy(dst + off, src, src.length) on a byte list. -/
def listWrite (dst : List Nat) (off : Nat) (src : List Nat) : List Nat :=
  dst.take off ++ src ++ dst.drop (off + src.length)

/-- state_read_cb from web.c: bsize = size * nmemb; if pos + bsize > size
(size_t compare) then bsize is clamped to size - pos (size_t subtraction)
and a nonpositive (int) cast of the clamped bsize returns 0 with nothing
transferred; otherwise bsize bytes from load_buf at pos are returned and
pos advances by bsize. Result: (return value, new context, bytes read). -/
def state_read_cb (ctx : StateContext) (sz nmemb : Nat) :
    Nat × StateContext × List Nat :=
  let bsize := sz * nmemb % W32
  if (ctx.pos + bsize) % W32 > ctx.size then
    let b := (ctx.size + W32 - ctx.pos) % W32
    if intNonpos b then (0, ctx, [])
    else (b, { ctx with pos := (ctx.pos + b) % W32 },
          (ctx.load_buf.drop ctx.pos).take b)
  else
    (bsize, { ctx with pos := (ctx.pos + bsize) % W32 },
     (ctx.load_buf.drop ctx.pos).take bsize)

/-- state_write_cb from web.c: same clamping as state_read_cb, then
memcpy(save_buf + pos, p, bsize) and pos += bsize, returning bsize. -/
def state_write_cb (ctx : StateContext) (sz nmemb : Nat) (p : List Nat) :
    Nat × StateContext :=
  let bsize := sz * nmemb % W32
  if (ctx.pos + bsize) % W32 > ctx.size then
    let b := (ctx.size + W32 - ctx.pos) % W32
    if intNonpos b then (0, ctx)
    else (b, { ctx with pos := (ctx.pos + b) % W32,
                        save_buf := listWrite ctx.save_buf ctx.pos (p.take b) })
  else
    (bsize, { ctx with pos := (ctx.pos + bsize) % W32,
                       save_buf := listWrite ctx.save_buf ctx.pos (p.take bsize) })

/-- state_skip_cb from web.c: pos += size * nmemb with no bound check. -/
def state_skip_cb (ctx : StateContext) (sz nmemb : Nat) : Nat × StateContext :=
  let bsize := sz * nmemb % W32
  (bsize, { ctx with pos := (ctx.pos + bsize) % W32 })

/-- state_eof_cb from web.c: pos >= size. -/
def state_eof_cb (ctx : StateContext) : Bool := decide (ctx.size ≤ ctx.pos)

/-- The three whence values state_seek_cb handles. -/
inductive Whence where
  | seekSet
  | seekCur
  | seekEnd
deriving Repr, DecidableEq

/-- state_seek_cb from web.c: sets pos to offset, pos + offset, or
size + offset with no clamping; the signed long offset is converted to
size_t, i.e. reduced mod 2 ^ 32. -/
def state_seek_cb (ctx : StateContext) (offset : Int) (w : Whence) :
    StateContext :=
  match w with
  | Whence.seekSet => { ctx with pos := (offset.emod (W32 : Int)).toNat }
  | Whence.seekCur =>
      { ctx with pos := (((ctx.pos : Int) + offset).emod (W32 : Int)).toNat }
  | Whence.seekEnd =>
      { ctx with pos := (((ctx.size : Int) + offset).emod (W32 : Int)).toNat }

/-- One operation on a bounded memory stream, as offered to the core
serializer by pico_state_save / pico_state_load. -/
inductive StreamOp where
  | read (sz nmemb : Nat)
  | write (sz nmemb : Nat) (p : List Nat)
  | skip (sz nmemb : Nat)
  | seek (offset : Int) (w : Whence)
deriving Repr, DecidableEq

/-- Whether an operation is a Read or a Write. -/
def StreamOp.isRW : StreamOp → Bool
  | StreamOp.read _ _ => true
  | StreamOp.write _ _ _ => true
  | _ => false

/-- State effect of one stream operation. -/
def runOp (ctx : StateContext) : StreamOp → StateContext
  | StreamOp.read sz nmemb => (state_read_cb ctx sz nmemb).2.1
  | StreamOp.write sz nmemb p => (state_write_cb ctx sz nmemb p).2
  | StreamOp.skip sz nmemb => (state_skip_cb ctx sz nmemb).2
  | StreamOp.seek off w => state_seek_cb ctx off w

/-- State effect of a sequence of stream operations. -/
def runOps (ctx : StateContext) (ops : List StreamOp) : StateContext :=
  List.foldl runOp ctx ops

/-- The global save-state bookkeeping of web.c: game_loaded, whether
state_buffer has been allocated, and state_size. -/
structure EmuState where
  game_loaded : Bool
  state_buffer : Bool
  state_size : Nat
deriving Repr, DecidableEq

/-- The stream pico_state_save hands to the serializer: capacity
STATE_MAX_SIZE, cursor 0 (buffer contents are not tracked here). -/
def saveCtx0 : StateContext :=
  { load_buf := [], save_buf := [], size := STATE_MAX_SIZE, pos := 0 }

/-- pico_state_save from web.c. The core serializer (PicoStateFP in write
mode, driven through the stream callbacks) is an external collaborator,
modelled as a function from the initial stream context to its returned
status and final context. mallocOk models whether the lazy state_buffer
allocation succeeds. Result: (return value, new global state, whether the
serializer was invoked). -/
def pico_state_save (serializer : StateContext → Int × StateContext)
    (mallocOk : Bool) (s : EmuState) : Int × EmuState × Bool :=
  if s.game_loaded = false then (0, s, false)
  else if s.state_buffer = false ∧ mallocOk = false then (0, s, false)
  else
    let s1 := { s with state_buffer := true }
    let r := serializer saveCtx0
    if r.1 ≠ 0 then (0, s1, true)
    else (1, { s1 with state_size := r.2.pos }, true)

/-- pico_state_load from web.c: fails (returning 0) when no game is
loaded, or the state buffer is unallocated, or state_size is 0; otherwise
it drives the serializer in read mode over a stream of capacity
state_size and propagates a nonzero status as failure. It never changes
the global bookkeeping. Result mirrors pico_state_save. -/
def pico_state_load (serializer : StateContext → Int × StateContext)
    (blob : List Nat) (s : EmuState) : Int × EmuState × Bool :=
  if s.game_loaded = false then (0, s, false)
  else if s.state_buffer = false ∨ s.state_size = 0 then (0, s, false)
  else
    let ctx0 : StateContext :=
      { load_buf := blob, save_buf := [], size := s.state_size, pos := 0 }
    let r := serializer ctx0
    if r.1 ≠ 0 then (0, s, true) else (1, s, true)

/-- A fresh 4-byte save stream (cursor 0), used for concrete instances. -/
def c1ctx : StateContext :=
  { load_buf := [], save_buf := [0, 0, 0, 0], size := 4, pos := 0 }

/-- A 4-byte save stream with the cursor at 2, used for concrete instances. -/
def c5ctx : StateContext :=
  { load_buf := [], save_buf := [9, 9, 9, 9], size := 4, pos := 2 }

/-- A 10-byte load stream (cursor 0), used for concrete instances. -/
def c6ctx : StateContext :=
  { load_buf := [7, 7, 7, 7, 7, 7, 7, 7, 7, 7], save_buf := [],
    size := 10, pos := 0 }

/-- A serializer that succeeds after leaving the cursor at 42. -/
def serOk : StateContext → Int × StateContext :=
  fun ctx => (0, { ctx with pos := 42 })

/-- A serializer that fails with status 5 after leaving the cursor at 42. -/
def serFail : StateContext → Int × StateContext :=
  fun ctx => (5, { ctx with pos := 42 })

end PicoWeb

namespace PicoWeb

/-- Claim C10: pico_set_input with a pad index outside 0 and 1 leaves both
controllers' stored input state unchanged; with pad 0 or 1 it updates
exactly that controller's entry to the given bitmask and leaves the other
entry unchanged. -/
theorem c10_set_input (pad : Int) (buttons : Nat) (s : Nat × Nat) :
    ((pad ≠ 0 ∧ pad ≠ 1) → pico_set_input pad buttons s = s) ∧
    pico_set_input 0 buttons s = (buttons, s.2) ∧
    pico_set_input 1 buttons s = (s.1, buttons) := by
  refine ⟨fun h => ?_, ?_, ?_⟩
  · have hno : ¬ (0 ≤ pad ∧ pad < 2) := by omega
    simp [pico_set_input, hno]
  · simp [pico_set_input]
  · norm_num [pico_set_input]

/-- Witness for C10 at pad 7 (unchanged), pad 0 and pad 1 (exactly one
entry updated). -/
theorem c10_set_input_witness :
    pico_set_input 7 3 (1, 2) = (1, 2) ∧
    pico_set_input 0 3 (1, 2) = (3, 2) ∧
    pico_set_input 1 3 (1, 2) = (1, 3) :=
  ⟨(c10_set_input 7 3 (1, 2)).1 (by decide),
   (c10_set_input 0 3 (1, 2)).2.1,
   (c10_set_input 1 3 (1, 2)).2.2⟩

/-- Claim C9: on every audio flush of len bytes, snd_write delivers one
packet of exactly (len / 4) stereo frames, i.e. len / 4 * 2 int16 values,
copied directly from the core's sample buffer with no buffering across
calls (the packet is a function of the current buffer and length only,
read from index 0). -/
theorem c9_snd_write (sndOut : Nat → Int) (len : Nat) :
    (snd_write sndOut len).length = len / 4 * 2 ∧
    ∀ i, i < len / 4 * 2 → (snd_write sndOut len).getD i 0 = sndOut i := by
  constructor
  · simp [snd_write]
  · intro i hi
    have hlen : i < (snd_write sndOut len).length := by
      simpa [snd_write] using hi
    rw [List.getD_eq_getElem _ _ hlen]
    simp [snd_write]

/-- Witness for C9 at the spec's example: a flush of 176 bytes delivers
exactly 44 stereo pairs (88 int16 values), and entry 3 comes from the
sample buffer. -/
theorem c9_snd_write_witness :
    (snd_write (fun i => (i : Int)) 176).length = 176 / 4 * 2 ∧
    (snd_write (fun i => (i : Int)) 176).getD 3 0 = (3 : Int) :=
  ⟨(c9_snd_write (fun i => (i : Int)) 176).1,
   (c9_snd_write (fun i => (i : Int)) 176).2 3 (by decide)⟩

/-- Claim C3: pico_state_save with a game loaded and the state buffer
allocated: when the core serializer returns status 0 the function returns
1 and sets state_size to the stream's final cursor; on any nonzero status
it returns 0 and leaves state_size (and the rest of the bookkeeping)
unchanged, exposing no partial blob. -/
theorem c3_save (f : StateContext → Int × StateContext) (mOk : Bool)
    (s : EmuState) (hg : s.game_loaded = true) (hb : s.state_buffer = true) :
    ((f saveCtx0).1 = 0 →
      pico_state_save f mOk s =
        (1, { s with state_size := (f saveCtx0).2.pos }, true)) ∧
    ((f saveCtx0).1 ≠ 0 → pico_state_save f mOk s = (0, s, true)) := by
  obtain ⟨g, b, z⟩ := s
  simp only at hg hb
  subst hg hb
  constructor
  · intro h0
    simp [pico_state_save, h0]
  · intro h0
    simp [pico_state_save, h0]

/-- Witness for C3: with serOk the save returns 1 and publishes size 42;
with serFail it returns 0 and the logical size stays 7. -/
theorem c3_save_witness :
    pico_state_save serOk true ⟨true, true, 7⟩ = (1, ⟨true, true, 42⟩, true) ∧
    pico_state_save serFail true ⟨true, true, 7⟩ = (0, ⟨true, true, 7⟩, true) :=
  ⟨(c3_save serOk true ⟨true, true, 7⟩ rfl rfl).1 rfl,
   (c3_save serFail true ⟨true, true, 7⟩ rfl rfl).2 (by decide)⟩

/-- Claim C7: pico_state_load fails (returns 0) when no game is loaded or
the declared blob size is 0, and pico_state_save fails when no game is
loaded; in each of these cases the global state is returned unchanged (no
buffer is mutated) and the serializer is never invoked (last component
false). -/
theorem c7_preconditions (f g : StateContext → Int × StateContext)
    (mOk : Bool) (blob : List Nat) (s : EmuState) :
    (s.game_loaded = false → pico_state_save f mOk s = (0, s, false)) ∧
    (s.game_loaded = false → pico_state_load g blob s = (0, s, false)) ∧
    (s.state_size = 0 → pico_state_load g blob s = (0, s, false)) := by
  refine ⟨fun h => ?_, fun h => ?_, fun h => ?_⟩
  · simp [pico_state_save, h]
  · simp [pico_state_load, h]
  · by_cases hg : s.game_loaded = false
    · simp [pico_state_load, hg]
    · simp [pico_state_load, hg, h]

/-- Witness for C7 at a state with no game loaded and blob size 0. -/
theorem c7_preconditions_witness :
    pico_state_save serOk true ⟨false, true, 0⟩ = (0, ⟨false, true, 0⟩, false) ∧
    pico_state_load serOk [] ⟨false, true, 0⟩ = (0, ⟨false, true, 0⟩, false) ∧
    pico_state_load serOk [] ⟨false, true, 0⟩ = (0, ⟨false, true, 0⟩, false) :=
  ⟨(c7_preconditions serOk serOk true [] ⟨false, true, 0⟩).1 rfl,
   (c7_preconditions serOk serOk true [] ⟨false, true, 0⟩).2.1 rfl,
   (c7_preconditions serOk serOk true [] ⟨false, true, 0⟩).2.2 rfl⟩

/-- Counterexample to claim C1: a single Skip of 5 bytes on a fresh
4-byte stream moves the cursor to 5, past the capacity 4, so the claimed
invariant cursor ≤ capacity does not survive Skip. -/
theorem c1_counterexample :
    c1ctx.pos = 0 ∧ c1ctx.size = 4 ∧
    ¬ (runOps c1ctx [StreamOp.skip 5 1]).pos ≤ c1ctx.size := by decide

/-- Counterexample to claim C2: the mode report (start_line 0,
line_count 240, start_col 0, col_count 400) makes emu_video_mode_change
set the visible width to 400, which exceeds the buffer maximum 320:
the width is taken verbatim from col_count and never clamped. -/
theorem c2_counterexample :
    (emu_video_mode_change 0 240 0 400 v0).vout_width = 400 ∧
    ¬ (emu_video_mode_change 0 240 0 400 v0).vout_width ≤ VOUT_MAX_WIDTH := by
  decide

/-- Counterexample to claim C4: the mode (start_line 240, line_count 224,
start_col 0, col_count 320) satisfies the claim's stated limits
(start_line nonnegative, line_count at most 240, col_count at most 320),
yet the offset clamp fires: the final offset is 152960, not
width * start_line * 2 = 153600. -/
theorem c4_counterexample :
    ((0 : Int) ≤ 240 ∧ (224 : Int) ≤ VOUT_MAX_HEIGHT ∧
      (320 : Int) ≤ VOUT_MAX_WIDTH) ∧
    (emu_video_mode_change 240 224 0 320 v0).vout_width = 320 ∧
    (emu_video_mode_change 240 224 0 320 v0).vout_offset = 152960 ∧
    ¬ (emu_video_mode_change 240 224 0 320 v0).vout_offset = 320 * 240 * 2 := by
  decide

/-- Counterexample to claim C6: Seek(-1, SEEK_SET) converts the negative
long offset to the size_t cursor 2 ^ 32 - 1, which is at or past the end
of a 10-byte stream (Eof reports true), yet a subsequent Read of 5 bytes
returns 5, not 0: the wrapped cursor-plus-length comparison skips the
clamp, so the read is not rejected. -/
theorem c6_counterexample :
    state_eof_cb (state_seek_cb c6ctx (-1) Whence.seekSet) = true ∧
    (state_read_cb (state_seek_cb c6ctx (-1) Whence.seekSet) 1 5).1 = 5 ∧
    ¬ (state_read_cb (state_seek_cb c6ctx (-1) Whence.seekSet) 1 5).1 = 0 := by
  decide

/-- Counterexample to claim C8: in the step order of
emu_video_mode_change at the mode (8, 224, 0, 320), the palette-dirty
step does not precede the host notification: the EM_ASM notification
happens first, Pico.m.dirtyPal is set last. -/
theorem c8_counterexample :
    ¬ (emu_video_mode_change_trace 8 224 0 320 v0).indexOf VStep.dirtyPal <
        (emu_video_mode_change_trace 8 224 0 320 v0).indexOf
          (VStep.notifyHost 320 224) := by decide

/-- Claim C8 as amended: emu_video_mode_change performs the seven steps
in the order cache mode, set dimensions, clear buffer, set output buffer
(pitch width * 2), compute and clamp the offset (the height clamp also
sits here, after the offset computation), then notify the host of the
final clamped (width, height), and mark the palette dirty last — i.e.
the spec's step 7 happens before its step 6. -/
theorem c8_amended (start_line line_count start_col col_count : Int)
    (s : VideoState) :
    emu_video_mode_change_trace start_line line_count start_col col_count s =
      [VStep.cacheMode, VStep.setDims, VStep.clearBuf,
       VStep.setOutBuf (col_count * 2), VStep.computeOffset,
       VStep.notifyHost
         (emu_video_mode_change start_line line_count start_col col_count s).vout_width
         (emu_video_mode_change start_line line_count start_col col_count s).vout_height,
       VStep.dirtyPal] ∧
    (emu_video_mode_change start_line line_count start_col col_count s).dirtyPal
      = true := by
  exact ⟨rfl, rfl⟩

end PicoWeb

namespace PicoWeb

/-- Claim C2 as amended: after an emu_video_mode_change call with a
nonnegative start_line and col_count (bounded so the offset arithmetic
stays within a 32-bit int), the visible height never exceeds the
compile-time maximum 240 and the byte offset lies within
[0, width * (MAX_HEIGHT - 1) * 2] — but the visible width is taken
verbatim from col_count and is never clamped to 320, so the original
claim's width bound fails (see the counterexample). -/
theorem c2_amended (start_line line_count start_col col_count : Int)
    (s : VideoState)
    (hsl0 : 0 ≤ start_line) (hsl1 : start_line ≤ 16384)
    (hcc0 : 0 ≤ col_count) (hcc1 : col_count ≤ 16384) :
    (emu_video_mode_change start_line line_count start_col col_count s).vout_height
      ≤ VOUT_MAX_HEIGHT ∧
    0 ≤ (emu_video_mode_change start_line line_count start_col col_count s).vout_offset ∧
    (emu_video_mode_change start_line line_count start_col col_count s).vout_offset
      ≤ (emu_video_mode_change start_line line_count start_col col_count s).vout_width
          * (VOUT_MAX_HEIGHT - 1) * 2 ∧
    (emu_video_mode_change start_line line_count start_col col_count s).vout_width
      = col_count := by
  have hb0 : (0 : Int) ≤ col_count * (VOUT_MAX_HEIGHT - 1) * 2 := by
    have h239 : (0 : Int) ≤ VOUT_MAX_HEIGHT - 1 := by norm_num [VOUT_MAX_HEIGHT]
    exact mul_nonneg (mul_nonneg hcc0 h239) (by norm_num)
  have ho0 : (0 : Int) ≤ col_count * start_line * 2 :=
    mul_nonneg (mul_nonneg hcc0 hsl0) (by norm_num)
  simp only [emu_video_mode_change]
  split_ifs with h1 h2 h2 <;> simp_all

end PicoWeb

namespace PicoWeb

/-- Claim C4 as amended: for every DisplayMode within hardware limits
with additionally start_line ≤ MAX_HEIGHT - 1 (without it the offset
clamp can fire, see the counterexample), emu_video_mode_change computes
offset = width * start_line * 2 with 0 ≤ offset ≤
width * (MAX_HEIGHT - 1) * 2, pico_get_video_buffer returns a pointer
exactly that many bytes past the pixel buffer start, and width and height
are col_count and line_count; at (start_line 8, line_count 224,
start_col 0, col_count 320) this yields width 320, height 224 and
offset 5120 (see the witness). -/
theorem c4_amended (start_line line_count start_col col_count : Int)
    (s : VideoState)
    (h1 : 0 ≤ start_line) (h2 : start_line ≤ VOUT_MAX_HEIGHT - 1)
    (h3 : 0 ≤ line_count) (h4 : line_count ≤ VOUT_MAX_HEIGHT)
    (h5 : 0 ≤ col_count) (h6 : col_count ≤ VOUT_MAX_WIDTH) :
    (emu_video_mode_change start_line line_count start_col col_count s).vout_offset
      = col_count * start_line * 2 ∧
    0 ≤ col_count * start_line * 2 ∧
    col_count * start_line * 2 ≤ col_count * (VOUT_MAX_HEIGHT - 1) * 2 ∧
    pico_get_video_buffer
        (emu_video_mode_change start_line line_count start_col col_count s)
      = col_count * start_line * 2 ∧
    (emu_video_mode_change start_line line_count start_col col_count s).vout_width
      = col_count ∧
    (emu_video_mode_change start_line line_count start_col col_count s).vout_height
      = line_count := by
  have ho0 : (0 : Int) ≤ col_count * start_line * 2 :=
    mul_nonneg (mul_nonneg h5 h1) (by norm_num)
  have hole : col_count * start_line * 2 ≤ col_count * (VOUT_MAX_HEIGHT - 1) * 2 := by
    have hmul : col_count * start_line ≤ col_count * (VOUT_MAX_HEIGHT - 1) :=
      mul_le_mul_of_nonneg_left h2 h5
    linarith
  simp only [emu_video_mode_change, pico_get_video_buffer]
  split_ifs with ha hb hb <;> simp_all <;> omega

end PicoWeb

namespace PicoWeb

/-- Claim C5: a Write of n bytes to a bounded memory stream whose cursor
leaves only k = capacity - cursor < n bytes of remaining capacity
(k ≥ 0, i.e. the cursor is within capacity) copies exactly k bytes into
the backing buffer at the cursor, advances the cursor by exactly k, and
returns k, never more. The side conditions capacity < 2 ^ 31 and
cursor + n < 2 ^ 32 hold for every stream this program constructs
(capacities are at most STATE_MAX_SIZE or the int-typed declared load
size) and keep the size_t arithmetic free of wraparound. -/
theorem c5_write_clips (ctx : StateContext) (n : Nat) (p : List Nat)
    (hsz : ctx.size < INT_HALF) (hpos : ctx.pos ≤ ctx.size)
    (hn : ctx.pos + n < W32) (hk : ctx.size - ctx.pos < n) :
    (state_write_cb ctx 1 n p).1 = ctx.size - ctx.pos ∧
    (state_write_cb ctx 1 n p).2.pos = ctx.pos + (ctx.size - ctx.pos) ∧
    (state_write_cb ctx 1 n p).2.save_buf
      = listWrite ctx.save_buf ctx.pos (p.take (ctx.size - ctx.pos)) ∧
    (state_write_cb ctx 1 n p).2.size = ctx.size := by
  have hIH : INT_HALF = 2147483648 := rfl
  have hW : W32 = 4294967296 := rfl
  have hnW : n < W32 := by omega
  have hb : 1 * n % W32 = n := by rw [one_mul]; exact Nat.mod_eq_of_lt hnW
  have hc : (ctx.pos + n) % W32 = ctx.pos + n := Nat.mod_eq_of_lt hn
  have hgt : ctx.pos + n > ctx.size := by omega
  have hbv : (ctx.size + W32 - ctx.pos) % W32 = ctx.size - ctx.pos := by
    have h1 : ctx.size + W32 - ctx.pos = W32 + (ctx.size - ctx.pos) := by omega
    rw [h1, Nat.add_mod_left]
    exact Nat.mod_eq_of_lt (by omega)
  have hps : (ctx.pos + (ctx.size - ctx.pos)) % W32
      = ctx.pos + (ctx.size - ctx.pos) := by
    apply Nat.mod_eq_of_lt; omega
  by_cases hk0 : ctx.size - ctx.pos = 0
  · have hint : intNonpos (ctx.size - ctx.pos) = true := by simp [intNonpos, hk0]
    have heq : state_write_cb ctx 1 n p = (0, ctx) := by
      simp only [state_write_cb, hb, hc, hbv, hint]
      rw [if_pos hgt]
      simp
    rw [heq]
    refine ⟨hk0.symm, by show ctx.pos = ctx.pos + (ctx.size - ctx.pos); omega, ?_, rfl⟩
    simp [listWrite, hk0]
  · have hint : intNonpos (ctx.size - ctx.pos) = false := by
      simp only [intNonpos, Bool.or_eq_false_iff, beq_eq_false_iff_ne, ne_eq,
        decide_eq_false_iff_not]
      omega
    have heq : state_write_cb ctx 1 n p =
        (ctx.size - ctx.pos,
         { ctx with pos := ctx.pos + (ctx.size - ctx.pos),
                    save_buf := listWrite ctx.save_buf ctx.pos
                      (p.take (ctx.size - ctx.pos)) }) := by
      simp only [state_write_cb, hb, hc, hbv, hint]
      rw [if_pos hgt]
      simp [hps]
    rw [heq]
    exact ⟨rfl, rfl, rfl, rfl⟩

end PicoWeb

namespace PicoWeb

/-- Reducing a signed value mod 2 ^ 32 (the long-to-size_t conversion)
always lands in [0, 2 ^ 32). -/
theorem emod_toNat_lt (a : Int) : (a.emod ((W32 : Nat) : Int)).toNat < W32 := by
  have h1 : 0 ≤ a.emod ((W32 : Nat) : Int) :=
    Int.emod_nonneg a (by norm_num [W32])
  have h2 : a.emod ((W32 : Nat) : Int) < ((W32 : Nat) : Int) :=
    Int.emod_lt_of_pos a (by norm_num [W32])
  omega

/-- state_seek_cb never changes the stream capacity. -/
theorem seek_size (ctx : StateContext) (off : Int) (w : Whence) :
    (state_seek_cb ctx off w).size = ctx.size := by
  cases w <;> rfl

/-- state_seek_cb always leaves the cursor below 2 ^ 32 (it is a size_t). -/
theorem seek_pos_lt (ctx : StateContext) (off : Int) (w : Whence) :
    (state_seek_cb ctx off w).pos < W32 := by
  cases w <;> exact emod_toNat_lt _

/-- A Read on a stream whose cursor sits at or past the end, but less than
2 ^ 31 past it, transfers nothing: it returns 0 and leaves the context
unchanged (provided the cursor-plus-length sum does not wrap mod 2 ^ 32). -/
theorem read_past_end (ctx : StateContext) (n : Nat)
    (hsz : ctx.size < W32) (hp : ctx.pos < W32)
    (hge : ctx.size ≤ ctx.pos) (hlt : ctx.pos < ctx.size + INT_HALF)
    (hn : ctx.pos + n < W32) :
    state_read_cb ctx 1 n = (0, ctx, []) := by
  have hIH : INT_HALF = 2147483648 := rfl
  have hW : W32 = 4294967296 := rfl
  have hnW : n < W32 := by omega
  have hb : 1 * n % W32 = n := by rw [one_mul]; exact Nat.mod_eq_of_lt hnW
  have hc : (ctx.pos + n) % W32 = ctx.pos + n := Nat.mod_eq_of_lt hn
  by_cases hgt : ctx.pos + n > ctx.size
  · by_cases he : ctx.pos = ctx.size
    · have hbv : (ctx.size + W32 - ctx.pos) % W32 = 0 := by
        have h1 : ctx.size + W32 - ctx.pos = W32 := by omega
        rw [h1, Nat.mod_self]
      have hint : intNonpos 0 = true := by simp [intNonpos]
      simp only [state_read_cb, hb, hc, hbv, hint]
      rw [if_pos hgt]
      simp
    · have hbv : (ctx.size + W32 - ctx.pos) % W32 = ctx.size + W32 - ctx.pos :=
        Nat.mod_eq_of_lt (by omega)
      have hint : intNonpos (ctx.size + W32 - ctx.pos) = true := by
        have hle : INT_HALF ≤ ctx.size + W32 - ctx.pos := by omega
        simp [intNonpos, hle]
      simp only [state_read_cb, hb, hc, hbv, hint]
      rw [if_pos hgt]
      simp
  · have hpe1 : ctx.pos = ctx.size := by omega
    have hpe2 : n = 0 := by omega
    subst hpe2
    have hc0 : (ctx.pos + 1 * 0 % W32) % W32 = ctx.pos := by
      simp only [mul_zero, Nat.zero_mod, Nat.add_zero]
      exact Nat.mod_eq_of_lt hp
    simp only [state_read_cb]
    rw [hc0, if_neg (by omega : ¬ ctx.pos > ctx.size)]
    rfl

/-- Claim C6 as amended: for every Seek that positions the (unsigned)
cursor at or past the end of the stream but less than 2 ^ 31 bytes past
it — which covers every forward overshoot, but not a Seek whose negative
or wrapped offset lands the cursor 2 ^ 31 or more past the end (see the
counterexample) — a subsequent Read of any length n that does not wrap
the cursor mod 2 ^ 32 returns zero bytes, transfers nothing, leaves the
context unchanged, and Eof() returns true. -/
theorem c6_amended (ctx : StateContext) (off : Int) (w : Whence) (n : Nat)
    (hsz : ctx.size < W32)
    (hge : ctx.size ≤ (state_seek_cb ctx off w).pos)
    (hlt : (state_seek_cb ctx off w).pos < ctx.size + INT_HALF)
    (hn : (state_seek_cb ctx off w).pos + n < W32) :
    state_read_cb (state_seek_cb ctx off w) 1 n
      = (0, state_seek_cb ctx off w, []) ∧
    state_eof_cb (state_seek_cb ctx off w) = true := by
  have hs := seek_size ctx off w
  constructor
  · exact read_past_end _ n (by rw [hs]; exact hsz) (seek_pos_lt ctx off w)
      (by rw [hs]; exact hge) (by rw [hs]; exact hlt) hn
  · simp only [state_eof_cb, decide_eq_true_eq, hs]
    exact hge

/-- Witness for C6 (amended). -/
theorem c6_amended_witness :
    state_read_cb (state_seek_cb c6ctx 3 Whence.seekEnd) 1 5
      = (0, state_seek_cb c6ctx 3 Whence.seekEnd, []) ∧
    state_eof_cb (state_seek_cb c6ctx 3 Whence.seekEnd) = true :=
  c6_amended c6ctx 3 Whence.seekEnd 5 (by decide) (by decide) (by decide)
    (by decide)

end PicoWeb

namespace PicoWeb

/-- When the cursor is within capacity and the clamp branch of a read or
write fires, the updated cursor lands exactly at the capacity. -/
theorem clamp_pos_eq (size pos : Nat) (hsz : size < W32) (h0 : pos ≤ size) :
    (pos + (size + W32 - pos) % W32) % W32 = size := by
  have h1 : size + W32 - pos = W32 + (size - pos) := by omega
  rw [h1, Nat.add_mod_left, Nat.mod_eq_of_lt (by omega : size - pos < W32),
      Nat.add_sub_cancel' h0, Nat.mod_eq_of_lt hsz]

/-- A single Read or Write keeps the cursor within capacity and leaves the
capacity unchanged. -/
theorem rw_step_preserves (ctx : StateContext) (op : StreamOp)
    (hrw : op.isRW = true) (hsz : ctx.size < W32) (h0 : ctx.pos ≤ ctx.size) :
    (runOp ctx op).pos ≤ ctx.size ∧ (runOp ctx op).size = ctx.size := by
  cases op with
  | skip sz nmemb => simp [StreamOp.isRW] at hrw
  | seek off w => simp [StreamOp.isRW] at hrw
  | read sz nmemb =>
      simp only [runOp, state_read_cb]
      split
      case isTrue h =>
        split
        case isTrue h2 => exact ⟨h0, rfl⟩
        case isFalse h2 =>
          refine ⟨?_, rfl⟩
          show (ctx.pos + (ctx.size + W32 - ctx.pos) % W32) % W32 ≤ ctx.size
          rw [clamp_pos_eq ctx.size ctx.pos hsz h0]
      case isFalse h =>
        refine ⟨?_, rfl⟩
        exact Nat.le_of_not_lt h
  | write sz nmemb p =>
      simp only [runOp, state_write_cb]
      split
      case isTrue h =>
        split
        case isTrue h2 => exact ⟨h0, rfl⟩
        case isFalse h2 =>
          refine ⟨?_, rfl⟩
          show (ctx.pos + (ctx.size + W32 - ctx.pos) % W32) % W32 ≤ ctx.size
          rw [clamp_pos_eq ctx.size ctx.pos hsz h0]
      case isFalse h =>
        refine ⟨?_, rfl⟩
        exact Nat.le_of_not_lt h

/-- Over a sequence of Reads and Writes the cursor stays within the
(unchanged) capacity. -/
theorem runOps_rw_inv (ops : List StreamOp) (ctx : StateContext)
    (hrw : ∀ op ∈ ops, op.isRW = true) (hsz : ctx.size < W32)
    (h0 : ctx.pos ≤ ctx.size) :
    (runOps ctx ops).pos ≤ ctx.size ∧ (runOps ctx ops).size = ctx.size := by
  induction ops generalizing ctx with
  | nil => exact ⟨h0, rfl⟩
  | cons op ops ih =>
      have hop : op.isRW = true := hrw op (List.mem_cons_self _ _)
      have hstep := rw_step_preserves ctx op hop hsz h0
      have hrest := ih (runOp ctx op)
        (fun o ho => hrw o (List.mem_cons_of_mem _ ho))
        (by rw [hstep.2]; exact hsz)
        (by rw [hstep.2]; exact hstep.1)
      refine ⟨?_, ?_⟩
      · show (runOps (runOp ctx op) ops).pos ≤ ctx.size
        rw [← hstep.2]
        exact hrest.1
      · show (runOps (runOp ctx op) ops).size = ctx.size
        rw [hrest.2, hstep.2]

/-- Every stream operation leaves the cursor below 2 ^ 32: it is a size_t,
and each callback reduces it mod 2 ^ 32. -/
theorem step_pos_lt (ctx : StateContext) (op : StreamOp)
    (hp : ctx.pos < W32) : (runOp ctx op).pos < W32 := by
  have hW : 0 < W32 := by norm_num [W32]
  cases op with
  | read sz nmemb =>
      simp only [runOp, state_read_cb]
      split
      · split
        · exact hp
        · exact Nat.mod_lt _ hW
      · exact Nat.mod_lt _ hW
  | write sz nmemb p =>
      simp only [runOp, state_write_cb]
      split
      · split
        · exact hp
        · exact Nat.mod_lt _ hW
      · exact Nat.mod_lt _ hW
  | skip sz nmemb => exact Nat.mod_lt _ hW
  | seek off w => exact seek_pos_lt ctx off w

/-- Over any sequence of stream operations the cursor stays below 2 ^ 32. -/
theorem runOps_pos_lt (ops : List StreamOp) (ctx : StateContext)
    (hp : ctx.pos < W32) : (runOps ctx ops).pos < W32 := by
  induction ops generalizing ctx with
  | nil => exact hp
  | cons op ops ih => exact ih (runOp ctx op) (step_pos_lt ctx op hp)

/-- Claim C1 as amended: for every sequence of stream operations applied
to a bounded memory stream whose cursor starts within [0, capacity], every
prefix made of Reads and Writes keeps the cursor within [0, capacity] and
leaves the capacity unchanged; Skip and Seek do not clamp (a Skip adds its
byte count to the cursor unconditionally and a Seek sets the cursor
unconditionally, so either can move the cursor past capacity — see the
counterexample), but under any operation sequence the cursor remains a
size_t below 2 ^ 32. -/
theorem c1_amended (ctx : StateContext) (ops : List StreamOp) (k : Nat)
    (hsz : ctx.size < W32) (h0 : ctx.pos ≤ ctx.size) :
    ((∀ op ∈ ops, op.isRW = true) →
      (runOps ctx (ops.take k)).pos ≤ ctx.size ∧
      (runOps ctx (ops.take k)).size = ctx.size) ∧
    (runOps ctx (ops.take k)).pos < W32 := by
  constructor
  · intro hrw
    exact runOps_rw_inv (ops.take k) ctx
      (fun op ho => hrw op (List.take_subset k ops ho)) hsz h0
  · exact runOps_pos_lt (ops.take k) ctx (by omega)

/-- Witness for C1 (amended): a 6-byte Write then a 3-byte Read on a fresh
4-byte stream leave the cursor at 4, within the unchanged capacity. -/
theorem c1_amended_witness :
    ((runOps c1ctx
        ([StreamOp.write 1 6 [1, 2, 3, 4, 5, 6], StreamOp.read 1 3].take 2)).pos
      ≤ c1ctx.size ∧
    (runOps c1ctx
        ([StreamOp.write 1 6 [1, 2, 3, 4, 5, 6], StreamOp.read 1 3].take 2)).size
      = c1ctx.size) ∧
    (runOps c1ctx
        ([StreamOp.write 1 6 [1, 2, 3, 4, 5, 6], StreamOp.read 1 3].take 2)).pos
      < W32 :=
  ⟨(c1_amended c1ctx [StreamOp.write 1 6 [1, 2, 3, 4, 5, 6], StreamOp.read 1 3]
      2 (by decide) (by decide)).1 (by decide),
   (c1_amended c1ctx [StreamOp.write 1 6 [1, 2, 3, 4, 5, 6], StreamOp.read 1 3]
      2 (by decide) (by decide)).2⟩

end PicoWeb

namespace PicoWeb

/-- Witness for C2 (amended): the malformed mode (start_line 300,
line_count 500, start_col 0, col_count 100) is clamped to height 240 and
an offset within [0, 100 * 239 * 2], with width taken verbatim as 100. -/
theorem c2_amended_witness :
    (emu_video_mode_change 300 500 0 100 v0).vout_height ≤ VOUT_MAX_HEIGHT ∧
    0 ≤ (emu_video_mode_change 300 500 0 100 v0).vout_offset ∧
    (emu_video_mode_change 300 500 0 100 v0).vout_offset
      ≤ (emu_video_mode_change 300 500 0 100 v0).vout_width
          * (VOUT_MAX_HEIGHT - 1) * 2 ∧
    (emu_video_mode_change 300 500 0 100 v0).vout_width = 100 :=
  c2_amended 300 500 0 100 v0 (by decide) (by decide) (by decide) (by decide)

/-- Witness for C4 (amended) at the spec's example mode (8, 224, 0, 320):
width 320, height 224, offset 320 * 8 * 2 = 5120, and the video buffer
pointer sits exactly 5120 bytes into the pixel buffer. -/
theorem c4_amended_witness :
    (emu_video_mode_change 8 224 0 320 v0).vout_offset = 320 * 8 * 2 ∧
    0 ≤ (320 : Int) * 8 * 2 ∧
    (320 : Int) * 8 * 2 ≤ 320 * (VOUT_MAX_HEIGHT - 1) * 2 ∧
    pico_get_video_buffer (emu_video_mode_change 8 224 0 320 v0) = 320 * 8 * 2 ∧
    (emu_video_mode_change 8 224 0 320 v0).vout_width = 320 ∧
    (emu_video_mode_change 8 224 0 320 v0).vout_height = 224 :=
  c4_amended 8 224 0 320 v0 (by decide) (by decide) (by decide) (by decide)
    (by decide) (by decide)

/-- Witness for C5: a 5-byte Write to a 4-byte stream with the cursor at 2
(2 bytes of remaining capacity) writes exactly 2 bytes at the cursor,
advances the cursor to 4, and returns 2. -/
theorem c5_write_clips_witness :
    (state_write_cb c5ctx 1 5 [1, 2, 3, 4, 5]).1 = c5ctx.size - c5ctx.pos ∧
    (state_write_cb c5ctx 1 5 [1, 2, 3, 4, 5]).2.pos
      = c5ctx.pos + (c5ctx.size - c5ctx.pos) ∧
    (state_write_cb c5ctx 1 5 [1, 2, 3, 4, 5]).2.save_buf
      = listWrite c5ctx.save_buf c5ctx.pos
          ([1, 2, 3, 4, 5].take (c5ctx.size - c5ctx.pos)) ∧
    (state_write_cb c5ctx 1 5 [1, 2, 3, 4, 5]).2.size = c5ctx.size :=
  c5_write_clips c5ctx 5 [1, 2, 3, 4, 5] (by decide) (by decide) (by decide)
    (by decide)

end PicoWeb
